import Mathlib

/-!
Verification of the RECOVER.AI Recovery Risk Assessment Engine.

The repository (rakshitha12738/webathon) ships the patient-facing frontend
(React), the documentation (README, setup guides) and static demo data; the
backend engine itself (`app/services/risk_engine.py` and the Flask routes)
is not among the shipped sources.  The engine components below are therefore
modelled from the specification, checked for consistency against the
repository documentation (README "Risk Engine Logic" rules, the API examples)
and the frontend code that consumes the engine's output.

Dates are modelled as rational day numbers (a calendar date is a whole
number; a timestamp inside a day is a non-integral rational), sleep hours as
rationals, and all machine integers as `Nat`/`Int`.
-/

namespace Recover

/-- The four primary risk classifications, in increasing order of urgency. -/
inductive RiskStatus where
  | stable
  | monitor
  | needsReview
  | highRisk
deriving DecidableEq, Repr

/-- The enumerated appetite values of a daily log. -/
inductive Appetite where
  | good
  | fair
  | poor
deriving DecidableEq, Repr

/-- A canonical (already validated) Daily Log record, §3 of the spec.
`patient_id`, `body_part` and `note_text` are free text that the engine
never inspects, so they are omitted from the embedding. -/
structure DailyLog where
  painLevel : Nat
  moodLevel : Nat
  sleepHours : ℚ
  appetite : Appetite
  swelling : Bool
deriving DecidableEq, Repr

/-- A raw daily-log payload as received from the wire, before validation:
numeric fields may be out of range and `appetite` is an arbitrary string. -/
structure RawLog where
  painLevel : Int
  moodLevel : Int
  sleepHours : ℚ
  appetite : String
  swelling : Bool
deriving DecidableEq, Repr

/-- A Recovery Profile, §3 of the spec.  `start_date` is a day number. -/
structure RecoveryProfile where
  startDate : ℚ
  expectedDurationDays : Nat
  acceptablePainWeek1 : Nat
  acceptablePainWeek3 : Nat
deriving DecidableEq, Repr

/-- Modelled from the spec: the Risk Classifier's status resolution (§4.4),
missing from the shipped sources (`app/services/risk_engine.py`).  Rules are
evaluated in fixed priority order, first match wins, exactly as listed in
the README "Risk Engine Logic" section and the frontend's rule card:
pain >= 8 gives needs_review; swelling with pain >= 7 gives high_risk;
an increasing pain trend gives monitor; otherwise stable. -/
def classifyStatus (painLevel : Nat) (swelling : Bool) (increasingTrend : Bool) :
    RiskStatus :=
  if 8 ≤ painLevel then .needsReview
  else if swelling = true ∧ 7 ≤ painLevel then .highRisk
  else if increasingTrend = true then .monitor
  else .stable

/-- Modelled from the spec: the deviation flag (§4.4), missing from the
shipped sources.  True iff a stage pain threshold is available and today's
pain level strictly exceeds it; with no threshold (no Recovery Profile) the
flag is false. -/
def deviationFlag (threshold : Option Nat) (painLevel : Nat) : Bool :=
  match threshold with
  | none => false
  | some t => decide (t < painLevel)

/-- Modelled from the spec: the numeric risk score (§4.4), missing from the
shipped sources.  The spec leaves the exact weights open but requires a
dominant pain term with additive bonuses for swelling, deviation and trend,
clamped to 0..100; the weights below are one such choice. -/
def riskScore (painLevel : Nat) (swelling deviation trend : Bool) : Nat :=
  min 100
    (painLevel * 8 + (if swelling then 15 else 0) +
      (if deviation then 10 else 0) + (if trend then 10 else 0))

/-- Modelled from the spec: the Trend Analyzer (§4.3), missing from the
shipped sources.  Input is the pain levels of the patient's log history
ordered by date ascending (oldest first), including the log being
processed.  The three most recent entries are inspected; the trend is
increasing iff there are at least three entries and the pain level strictly
rises across them. -/
def increasingTrend (painHistory : List Nat) : Bool :=
  match painHistory.reverse with
  | c :: b :: a :: _ => decide (a < b ∧ b < c)
  | _ => false

/-- The stage record produced by the Stage Resolver (§4.2).  The static
recommendation and warning-sign string lists are UI content carried along
unchanged; they are omitted from the embedding. -/
structure StageInfo where
  stageLabel : String
  acceptablePainUpperBound : Nat
  focus : String
deriving DecidableEq, Repr

/-- Modelled from the spec: `days_since_start` (§4.2), missing from the
shipped sources: the whole-day floor of `reference_date - start_date`, with
negative values clamped to 0. -/
def daysSinceStart (startDate refDate : ℚ) : Nat :=
  (⌊refDate - startDate⌋).toNat

/-- Modelled from the spec: the Stage Resolver (§4.2), missing from the
shipped sources.  Exactly two stages: days 0..7 are "Week 1" with the
week-1 pain bound, later days are "Week 3" with the week-3 pain bound. -/
def resolveStage (p : RecoveryProfile) (refDate : ℚ) : StageInfo :=
  if daysSinceStart p.startDate refDate ≤ 7 then
    { stageLabel := "Week 1"
      acceptablePainUpperBound := p.acceptablePainWeek1
      focus := "Rest and initial healing" }
  else
    { stageLabel := "Week 3"
      acceptablePainUpperBound := p.acceptablePainWeek3
      focus := "Gradual activity increase" }

/-- The low-sleep threshold (hours) of the Complication Index Calculator;
the README's rule text uses 4. -/
def lowSleepThreshold : ℚ := 4

/-- The minimum number of active indicators that triggers the elevated
complication index (§4.5 leaves the constant to the implementer). -/
def complicationMinCount : Nat := 2

/-- The elevated complication-index percentage. -/
def elevatedComplicationIndex : Nat := 35

/-- Modelled from the spec: the count of active elevated-risk indicators
(§4.5), missing from the shipped sources: deviation flag active, swelling
present, sleep below the low-sleep threshold, appetite reported as poor. -/
def complicationIndicatorCount (deviation swelling : Bool) (sleepHours : ℚ)
    (appetite : Appetite) : Nat :=
  (if deviation then 1 else 0) + (if swelling then 1 else 0) +
    (if sleepHours < lowSleepThreshold then 1 else 0) +
    (if appetite = Appetite.poor then 1 else 0)

/-- Modelled from the spec: the Complication Index Calculator (§4.5),
missing from the shipped sources.  The elevated percentage is assigned
exactly when the indicator count reaches the minimum; otherwise 0. -/
def complicationIndex (deviation swelling : Bool) (sleepHours : ℚ)
    (appetite : Appetite) : Nat :=
  if complicationMinCount ≤
      complicationIndicatorCount deviation swelling sleepHours appetite then
    elevatedComplicationIndex
  else 0

/-- The record the engine computes for one submitted log (§3 Risk Score,
minus the identity and timestamp fields the engine never computes from). -/
structure RiskResult where
  riskStatus : RiskStatus
  riskScore : Nat
  deviationFlag : Bool
  complicationIndex : Nat
deriving DecidableEq, Repr

/-- Modelled from the spec: the engine pipeline over an already validated
log (§2 control flow), missing from the shipped sources.  `profile` is the
patient's Recovery Profile if one exists; `painHistory` is the pain levels
of the prior logs ordered by date ascending, to which today's log is
appended before trend analysis. -/
def evaluateLog (profile : Option RecoveryProfile) (refDate : ℚ)
    (painHistory : List Nat) (log : DailyLog) : RiskResult :=
  let threshold : Option Nat :=
    profile.map fun p => (resolveStage p refDate).acceptablePainUpperBound
  let trend := increasingTrend (painHistory ++ [log.painLevel])
  let dev := deviationFlag threshold log.painLevel
  { riskStatus := classifyStatus log.painLevel log.swelling trend
    riskScore := riskScore log.painLevel log.swelling dev trend
    deviationFlag := dev
    complicationIndex :=
      complicationIndex dev log.swelling log.sleepHours log.appetite }

/-- Modelled from the spec: the validation checks of the Log Normalizer
(§4.1), missing from the shipped sources; returns the names of the
offending fields.  `pain_level` must be an integer in 0..10; `mood_level`
is on the 1..5 scale the patient form declares; `sleep_hours` must be
non-negative; `appetite` must be one of the enumerated values. -/
def offendingFields (r : RawLog) : List String :=
  (if 0 ≤ r.painLevel ∧ r.painLevel ≤ 10 then [] else ["pain_level"]) ++
    (if 1 ≤ r.moodLevel ∧ r.moodLevel ≤ 5 then [] else ["mood_level"]) ++
    (if 0 ≤ r.sleepHours then [] else ["sleep_hours"]) ++
    (if r.appetite = "good" ∨ r.appetite = "fair" ∨ r.appetite = "poor" then []
     else ["appetite"])

/-- Reading of a validated appetite string. -/
def parseAppetite (s : String) : Appetite :=
  if s = "good" then .good else if s = "fair" then .fair else .poor

/-- Modelled from the spec: the Log Normalizer (§4.1), missing from the
shipped sources.  Returns the canonical Daily Log, or fails with a
ValidationError naming the offending field(s); out-of-range values are
never clamped. -/
def normalizeLog (r : RawLog) : Except (List String) DailyLog :=
  if offendingFields r = [] then
    .ok { painLevel := r.painLevel.toNat
          moodLevel := r.moodLevel.toNat
          sleepHours := r.sleepHours
          appetite := parseAppetite r.appetite
          swelling := r.swelling }
  else .error (offendingFields r)

/-- Modelled from the spec: the single operation the engine exposes (§6),
missing from the shipped sources.  On validation failure nothing is
computed or persisted: the error is the whole outcome. -/
def Evaluate (profile : Option RecoveryProfile) (refDate : ℚ)
    (painHistory : List Nat) (raw : RawLog) :
    Except (List String) (DailyLog × RiskResult) :=
  match normalizeLog raw with
  | .error fields => .error fields
  | .ok log => .ok (log, evaluateLog profile refDate painHistory log)

/-- The daily-log submission response fields (§6, README
POST /api/patient/daily-log example). -/
structure DailyLogResponse where
  riskStatus : RiskStatus
  riskScore : Nat
  deviationFlag : Bool
  complicationIndex : Nat
deriving DecidableEq, Repr

/-- The daily-log response is a direct projection of the engine output. -/
def dailyLogResponse (r : RiskResult) : DailyLogResponse :=
  { riskStatus := r.riskStatus
    riskScore := r.riskScore
    deviationFlag := r.deviationFlag
    complicationIndex := r.complicationIndex }

/-- The guidance response (§4.6/§6, README GET /api/patient/guidance
example), merging the stage content with the latest risk state. -/
structure GuidanceResponse where
  stage : String
  daysSinceStart : Nat
  focus : String
  acceptablePainUpperBound : Nat
  currentRiskStatus : RiskStatus
  riskScore : Nat
deriving DecidableEq, Repr

/-- Modelled from the spec: the Guidance Generator (§4.6), missing from the
shipped sources; a pure merge of the resolved stage and the latest risk
result. -/
def getGuidance (p : RecoveryProfile) (refDate : ℚ) (latest : RiskResult) :
    GuidanceResponse :=
  let st := resolveStage p refDate
  { stage := st.stageLabel
    daysSinceStart := daysSinceStart p.startDate refDate
    focus := st.focus
    acceptablePainUpperBound := st.acceptablePainUpperBound
    currentRiskStatus := latest.riskStatus
    riskScore := latest.riskScore }

/-- One row of the doctor patient roster as the frontend renders it. -/
structure RosterEntry where
  name : String
  latestRiskStatus : RiskStatus
  latestRiskScore : Nat
  deviationFlag : Bool
  complicationIndex : Nat
deriving DecidableEq, Repr

/-- The static demo roster from `frontend/src/demoData.js`
(`STATIC_PATIENTS`): the complication indices as they are stored there,
bare numbers with the percent sign added only by the UI. -/
def STATIC_PATIENTS : List RosterEntry :=
  [ { name := "Priya Sharma", latestRiskStatus := .monitor,
      latestRiskScore := 42, deviationFlag := true, complicationIndex := 35 },
    { name := "Rahul Mehta", latestRiskStatus := .stable,
      latestRiskScore := 18, deviationFlag := false, complicationIndex := 0 },
    { name := "Ananya Iyer", latestRiskStatus := .highRisk,
      latestRiskScore := 81, deviationFlag := true, complicationIndex := 35 },
    { name := "Kiran Patel", latestRiskStatus := .needsReview,
      latestRiskScore := 63, deviationFlag := false, complicationIndex := 0 },
    { name := "Divya Nair", latestRiskStatus := .stable,
      latestRiskScore := 9, deviationFlag := false, complicationIndex := 0 } ]

/-- A demo Recovery Profile used by the concrete witnesses (the values of
the README's doctor-detail example: week-1 bound 5, week-3 bound 4). -/
def demoProfile : RecoveryProfile :=
  { startDate := 0, expectedDurationDays := 42,
    acceptablePainWeek1 := 5, acceptablePainWeek3 := 4 }

/-- C1: for every evaluated daily log with pain_level >= 8, the Risk
Classifier returns needs_review and not high_risk, regardless of swelling
and trend: priority rule 1 wins the tie over rule 2. -/
theorem pain8_needs_review (p : Nat) (s t : Bool) (h : 8 ≤ p) :
    classifyStatus p s t = RiskStatus.needsReview ∧
      classifyStatus p s t ≠ RiskStatus.highRisk := by
  constructor
  · simp [classifyStatus, h]
  · simp [classifyStatus, h]

/-- Witness for C1 at the required tie-break input: swelling true and
pain_level 9 give needs_review, not high_risk. -/
theorem pain8_needs_review_witness :
    classifyStatus 9 true false = RiskStatus.needsReview ∧
      classifyStatus 9 true false ≠ RiskStatus.highRisk :=
  pain8_needs_review 9 true false (by decide)

/-- C2: for every evaluated daily log with swelling and pain_level at least
7 but below 8 (rule 1 does not fire), the Risk Classifier returns
high_risk. -/
theorem swelling_pain7_high_risk (p : Nat) (t : Bool) (h7 : 7 ≤ p)
    (h8 : p < 8) : classifyStatus p true t = RiskStatus.highRisk := by
  have hn : ¬ 8 ≤ p := by omega
  simp [classifyStatus, hn, h7]

/-- Witness for C2 at swelling true, pain_level 7. -/
theorem swelling_pain7_high_risk_witness :
    classifyStatus 7 true false = RiskStatus.highRisk :=
  swelling_pain7_high_risk 7 false (by decide) (by decide)

/-- C3: the Trend Analyzer reports an increasing trend iff the date-ordered
history (including the log being processed) has at least three entries and
the pain levels strictly rise across the three most recent entries taken
oldest-of-the-three first; with fewer than three entries it reports
false. -/
theorem increasingTrend_iff (h : List Nat) :
    increasingTrend h = true ↔
      3 ≤ h.length ∧
        List.Chain' (· < ·) (h.drop (h.length - 3)) := by
  have hh : h = h.reverse.reverse := (List.reverse_reverse h).symm
  rcases hr : h.reverse with _ | ⟨c, _ | ⟨b, _ | ⟨a, t⟩⟩⟩ <;> rw [hr] at hh
  · subst hh; simp [increasingTrend]
  · subst hh; simp [increasingTrend]
  · subst hh; simp [increasingTrend]
  · have hrw : (c :: b :: a :: t).reverse = t.reverse ++ [a, b, c] := by simp
    rw [hrw] at hh; subst hh
    have hlen : (t.reverse ++ [a, b, c]).length = t.length + 3 := by simp
    have hdrop : (t.reverse ++ [a, b, c]).drop
        ((t.reverse ++ [a, b, c]).length - 3) = [a, b, c] := by
      rw [hlen]
      have : t.length + 3 - 3 = t.length := by omega
      rw [this]
      exact List.drop_left' (by simp)
    rw [hdrop, hlen]
    have h3 : 3 ≤ t.length + 3 := by omega
    simp [increasingTrend, List.reverse_append, h3, List.chain'_cons,
      and_assoc]

/-- Witness for C3: the spec scenario of history with pain 3 then 4 and a
new log with pain 5 yields an increasing trend, while the two-entry
history alone does not. -/
theorem increasingTrend_iff_witness :
    increasingTrend [3, 4, 5] = true ∧ increasingTrend [3, 4] = false := by
  constructor
  · exact (increasingTrend_iff [3, 4, 5]).mpr
      ⟨by decide, by simp [List.chain'_cons]⟩
  · have hcon := (increasingTrend_iff [3, 4]).mp
    cases htrend : increasingTrend [3, 4] with
    | false => rfl
    | true => exact absurd (hcon htrend).1 (by decide)

/-- C4: the deviation flag of an evaluation is true iff a stage pain
threshold is available and today's pain strictly exceeds it; with no
Recovery Profile the flag is false while a usable classification is still
returned; and the flag depends only on the threshold and the pain level,
independent of the history and the other log fields that resolve the
status. -/
theorem deviationFlag_spec (profile : Option RecoveryProfile) (refDate : ℚ)
    (hist : List Nat) (log : DailyLog) :
    ((evaluateLog profile refDate hist log).deviationFlag = true ↔
      ∃ t, profile.map
          (fun p => (resolveStage p refDate).acceptablePainUpperBound) =
            some t ∧ t < log.painLevel) ∧
    (profile = none →
      (evaluateLog profile refDate hist log).deviationFlag = false ∧
        (evaluateLog profile refDate hist log).riskStatus =
          classifyStatus log.painLevel log.swelling
            (increasingTrend (hist ++ [log.painLevel]))) ∧
    (∀ (hist' : List Nat) (log' : DailyLog),
      log'.painLevel = log.painLevel →
        (evaluateLog profile refDate hist' log').deviationFlag =
          (evaluateLog profile refDate hist log).deviationFlag) := by
  refine ⟨?_, ?_, ?_⟩
  · cases profile with
    | none => simp [evaluateLog, deviationFlag]
    | some p => simp [evaluateLog, deviationFlag]
  · intro hnone; subst hnone
    exact ⟨rfl, rfl⟩
  · intro hist' log' hpain
    cases profile with
    | none => rfl
    | some p => simp [evaluateLog, deviationFlag, hpain]

/-- Witness for C4: under the demo profile on day 3 (stage "Week 1",
bound 5) a pain-9 log raises the flag, and with no profile the flag is
false while the classification (needs_review) is still produced. -/
theorem deviationFlag_spec_witness :
    (evaluateLog (some demoProfile) 3 []
        { painLevel := 9, moodLevel := 3, sleepHours := 7,
          appetite := Appetite.good, swelling := false }).deviationFlag
      = true ∧
    (evaluateLog none 3 []
        { painLevel := 9, moodLevel := 3, sleepHours := 7,
          appetite := Appetite.good, swelling := false }).deviationFlag
      = false ∧
    (evaluateLog none 3 []
        { painLevel := 9, moodLevel := 3, sleepHours := 7,
          appetite := Appetite.good, swelling := false }).riskStatus
      = RiskStatus.needsReview := by
  refine ⟨?_, ?_, ?_⟩
  · apply (deviationFlag_spec (some demoProfile) 3 []
      { painLevel := 9, moodLevel := 3, sleepHours := 7,
        appetite := Appetite.good, swelling := false }).1.mpr
    refine ⟨5, ?_, by decide⟩
    have hday : daysSinceStart (0 : ℚ) 3 ≤ 7 := by
      norm_num [daysSinceStart]
    simp [resolveStage, demoProfile, hday]
  · exact ((deviationFlag_spec none 3 []
      { painLevel := 9, moodLevel := 3, sleepHours := 7,
        appetite := Appetite.good, swelling := false }).2.1 rfl).1
  · have := ((deviationFlag_spec none 3 []
      { painLevel := 9, moodLevel := 3, sleepHours := 7,
        appetite := Appetite.good, swelling := false }).2.1 rfl).2
    rw [this]; decide

/-- C5: the numeric risk score is monotonic non-decreasing in pain_level
with all other inputs fixed, and flipping any one of swelling, deviation
or trend from false to true never decreases it. -/
theorem riskScore_monotone (p q : Nat) (s d t : Bool) (h : p ≤ q) :
    riskScore p s d t ≤ riskScore q s d t ∧
      riskScore p false d t ≤ riskScore p true d t ∧
      riskScore p s false t ≤ riskScore p s true t ∧
      riskScore p s d false ≤ riskScore p s d true := by
  cases s <;> cases d <;> cases t <;> simp [riskScore] <;> omega

/-- Witness for C5 at pain 3 against pain 5 with all bonuses off. -/
theorem riskScore_monotone_witness :
    riskScore 3 false false false ≤ riskScore 5 false false false ∧
      riskScore 3 false false false ≤ riskScore 3 true false false ∧
      riskScore 3 false false false ≤ riskScore 3 false true false ∧
      riskScore 3 false false false ≤ riskScore 3 false false true :=
  riskScore_monotone 3 5 false false false (by decide)

/-- C6: the Stage Resolver computes days_since_start as the whole-day
floor of reference_date minus start_date with negatives clamped to 0, maps
days 0..7 to "Week 1" with the week-1 pain bound and focus "Rest and
initial healing", later days to "Week 3" with the week-3 bound and focus
"Gradual activity increase", and produces no stage beyond these two. -/
theorem resolveStage_spec (p : RecoveryProfile) (refDate : ℚ) :
    (refDate - p.startDate < 0 → daysSinceStart p.startDate refDate = 0) ∧
    (0 ≤ ⌊refDate - p.startDate⌋ →
      (daysSinceStart p.startDate refDate : ℤ) = ⌊refDate - p.startDate⌋) ∧
    (daysSinceStart p.startDate refDate ≤ 7 →
      resolveStage p refDate =
        { stageLabel := "Week 1",
          acceptablePainUpperBound := p.acceptablePainWeek1,
          focus := "Rest and initial healing" }) ∧
    (7 < daysSinceStart p.startDate refDate →
      resolveStage p refDate =
        { stageLabel := "Week 3",
          acceptablePainUpperBound := p.acceptablePainWeek3,
          focus := "Gradual activity increase" }) ∧
    ((resolveStage p refDate).stageLabel = "Week 1" ∨
      (resolveStage p refDate).stageLabel = "Week 3") := by
  refine ⟨?_, ?_, ?_, ?_, ?_⟩
  · intro hneg
    have hfl : ⌊refDate - p.startDate⌋ ≤ 0 := Int.floor_nonpos hneg.le
    exact Int.toNat_of_nonpos hfl
  · intro hpos
    exact Int.toNat_of_nonneg hpos
  · intro hle; simp [resolveStage, hle]
  · intro hgt
    have hn : ¬ daysSinceStart p.startDate refDate ≤ 7 := by omega
    simp [resolveStage, hn]
  · unfold resolveStage
    split
    · left; rfl
    · right; rfl

/-- Witness for C6 under the demo profile: a reference date before the
start clamps to day 0, day 3 resolves to the "Week 1" record with pain
bound 5, and day 19 (the STATIC_GUIDANCE scenario) resolves to the
"Week 3" record with pain bound 4. -/
theorem resolveStage_spec_witness :
    daysSinceStart demoProfile.startDate (-2) = 0 ∧
    resolveStage demoProfile 3 =
      { stageLabel := "Week 1", acceptablePainUpperBound := 5,
        focus := "Rest and initial healing" } ∧
    resolveStage demoProfile 19 =
      { stageLabel := "Week 3", acceptablePainUpperBound := 4,
        focus := "Gradual activity increase" } := by
  refine ⟨?_, ?_, ?_⟩
  · exact (resolveStage_spec demoProfile (-2)).1
      (by norm_num [demoProfile])
  · exact (resolveStage_spec demoProfile 3).2.2.1
      (by norm_num [demoProfile, daysSinceStart])
  · exact (resolveStage_spec demoProfile 19).2.2.2.1
      (by norm_num [demoProfile, daysSinceStart])

/-- C7: the risk score the engine returns is an integer (a natural number
in the embedding) bounded by 0..100, and the very same value is carried
unchanged into the daily-log response and the guidance response: one
consistent 0..100 scale across all responses. -/
theorem riskScore_scale (profile : Option RecoveryProfile) (refDate : ℚ)
    (hist : List Nat) (log : DailyLog) (gp : RecoveryProfile) :
    (evaluateLog profile refDate hist log).riskScore ≤ 100 ∧
    (dailyLogResponse (evaluateLog profile refDate hist log)).riskScore =
      (evaluateLog profile refDate hist log).riskScore ∧
    (getGuidance gp refDate (evaluateLog profile refDate hist log)).riskScore
      = (evaluateLog profile refDate hist log).riskScore := by
  refine ⟨?_, rfl, rfl⟩
  exact Nat.min_le_left 100 _

/-- C8: the complication index of an evaluation is a function of the four
indicators alone (deviation flag, swelling, low sleep, poor appetite),
computed independently of the status/score pair; it equals the elevated
value 35 exactly when at least `complicationMinCount` indicators are
active, and is 0 otherwise. -/
theorem complicationIndex_spec (profile : Option RecoveryProfile)
    (refDate : ℚ) (hist : List Nat) (log : DailyLog) :
    ((evaluateLog profile refDate hist log).complicationIndex =
      complicationIndex (evaluateLog profile refDate hist log).deviationFlag
        log.swelling log.sleepHours log.appetite) ∧
    ((evaluateLog profile refDate hist log).complicationIndex =
        elevatedComplicationIndex ↔
      complicationMinCount ≤ complicationIndicatorCount
        (evaluateLog profile refDate hist log).deviationFlag log.swelling
        log.sleepHours log.appetite) ∧
    ((evaluateLog profile refDate hist log).complicationIndex = 0 ∨
      (evaluateLog profile refDate hist log).complicationIndex =
        elevatedComplicationIndex) := by
  refine ⟨rfl, ?_, ?_⟩
  · show complicationIndex _ _ _ _ = _ ↔ _
    have hdev : (evaluateLog profile refDate hist log).deviationFlag =
        deviationFlag (profile.map fun p =>
          (resolveStage p refDate).acceptablePainUpperBound) log.painLevel :=
      rfl
    rw [hdev]
    unfold complicationIndex
    split
    · simp_all
    · simp_all [elevatedComplicationIndex]
  · show complicationIndex _ _ _ _ = 0 ∨ complicationIndex _ _ _ _ = _
    unfold complicationIndex
    split
    · right; rfl
    · left; rfl

/-- Witness for C8: with no profile (deviation false), swelling present,
3 hours of sleep and poor appetite, three indicators are active and the
index is the elevated 35; with none active it is 0. -/
theorem complicationIndex_spec_witness :
    (evaluateLog none 0 []
        { painLevel := 4, moodLevel := 3, sleepHours := 3,
          appetite := Appetite.poor, swelling := true }).complicationIndex
      = elevatedComplicationIndex ∧
    (evaluateLog none 0 []
        { painLevel := 4, moodLevel := 3, sleepHours := 7,
          appetite := Appetite.good, swelling := false }).complicationIndex
      = 0 := by
  constructor
  · exact (complicationIndex_spec none 0 []
      { painLevel := 4, moodLevel := 3, sleepHours := 3,
        appetite := Appetite.poor, swelling := true }).2.1.mpr (by decide)
  · have hch := (complicationIndex_spec none 0 []
      { painLevel := 4, moodLevel := 3, sleepHours := 7,
        appetite := Appetite.good, swelling := false }).2.2
    rcases hch with h0 | h35
    · exact h0
    · exact absurd ((complicationIndex_spec none 0 []
        { painLevel := 4, moodLevel := 3, sleepHours := 7,
          appetite := Appetite.good, swelling := false }).2.1.mp h35)
        (by decide)

/-- C9: a raw payload whose pain_level is not an integer in 0..10 or whose
mood_level is outside the declared 1..5 scale makes Evaluate fail with a
ValidationError naming the offending field(s); the value is not clamped
and no result record is produced for that request. -/
theorem evaluate_rejects_invalid (profile : Option RecoveryProfile)
    (refDate : ℚ) (hist : List Nat) (raw : RawLog)
    (hbad : ¬ (0 ≤ raw.painLevel ∧ raw.painLevel ≤ 10) ∨
      ¬ (1 ≤ raw.moodLevel ∧ raw.moodLevel ≤ 5)) :
    Evaluate profile refDate hist raw =
      Except.error (offendingFields raw) ∧
    (¬ (0 ≤ raw.painLevel ∧ raw.painLevel ≤ 10) →
      "pain_level" ∈ offendingFields raw) ∧
    (¬ (1 ≤ raw.moodLevel ∧ raw.moodLevel ≤ 5) →
      "mood_level" ∈ offendingFields raw) ∧
    (∀ out, Evaluate profile refDate hist raw ≠ Except.ok out) := by
  have hne : offendingFields raw ≠ [] := by
    unfold offendingFields
    rcases hbad with h | h
    · rw [if_neg h]; simp
    · rw [if_neg h]; simp
  have herr : Evaluate profile refDate hist raw =
      Except.error (offendingFields raw) := by
    unfold Evaluate normalizeLog
    rw [if_neg hne]
  refine ⟨herr, ?_, ?_, ?_⟩
  · intro h; unfold offendingFields; rw [if_neg h]; simp
  · intro h; unfold offendingFields; rw [if_neg h]; simp
  · intro out hcontra
    rw [herr] at hcontra
    exact Except.noConfusion hcontra

/-- Witness for C9: a payload with pain_level 11 is rejected with an error
naming pain_level, and never yields a result. -/
theorem evaluate_rejects_invalid_witness :
    Evaluate none 0 []
        { painLevel := 11, moodLevel := 3, sleepHours := 7,
          appetite := "good", swelling := false } =
      Except.error (offendingFields
        { painLevel := 11, moodLevel := 3, sleepHours := 7,
          appetite := "good", swelling := false }) ∧
    "pain_level" ∈ offendingFields
      { painLevel := 11, moodLevel := 3, sleepHours := 7,
        appetite := "good", swelling := false } := by
  constructor
  · exact (evaluate_rejects_invalid none 0 []
      { painLevel := 11, moodLevel := 3, sleepHours := 7,
        appetite := "good", swelling := false } (by decide)).1
  · exact (evaluate_rejects_invalid none 0 []
      { painLevel := 11, moodLevel := 3, sleepHours := 7,
        appetite := "good", swelling := false } (by decide)).2.1 (by decide)

/-- C10: every complication_index the engine produces is the bare number 0
or 35 and nothing else; the daily-log response carries exactly that
number, and every entry of the static doctor roster stores 0 or 35 as a
bare number (the percent sign is added only by the UI). -/
theorem complicationIndex_values (profile : Option RecoveryProfile)
    (refDate : ℚ) (hist : List Nat) (log : DailyLog) :
    ((evaluateLog profile refDate hist log).complicationIndex = 0 ∨
      (evaluateLog profile refDate hist log).complicationIndex = 35) ∧
    (dailyLogResponse (evaluateLog profile refDate hist log)).complicationIndex
      = (evaluateLog profile refDate hist log).complicationIndex ∧
    (STATIC_PATIENTS.all fun e =>
        e.complicationIndex == 0 || e.complicationIndex == 35) = true := by
  refine ⟨?_, rfl, by decide⟩
  show complicationIndex _ _ _ _ = 0 ∨ complicationIndex _ _ _ _ = 35
  unfold complicationIndex
  split
  · right; rfl
  · left; rfl

end Recover
